import Mathlib

/-!
Shallow embedding of the soap-recipe formulation engine
(`src/models/calculator.py`, `src/models/cost_manager.py`,
`src/data/oils.py`, `src/data/additives.py`).

Python floats are modelled as exact rationals; `round(x, 2)` is modelled
as round-half-to-even at two decimals, Python's documented rounding mode.
Python dicts keyed by strings are modelled as association lists with
unique keys (insertion order preserved, updates in place, inserts at the
end), matching dict semantics for the operations the engine uses.
-/

namespace SoapCalc

/-- Round-half-to-even to the nearest integer (Python `round` tie rule). -/
def rhe (x : ℚ) : ℤ :=
  if x - ⌊x⌋ < 1/2 then ⌊x⌋
  else if 1/2 < x - ⌊x⌋ then ⌊x⌋ + 1
  else if ⌊x⌋ % 2 = 0 then ⌊x⌋ else ⌊x⌋ + 1

/-- Python `round(x, 2)`. -/
def round2 (x : ℚ) : ℚ := (rhe (x * 100) : ℚ) / 100

/-- `x` is a whole number of hundredths (an exact 2-decimal quantity). -/
def isCent (x : ℚ) : Prop := ∃ k : ℤ, x * 100 = (k : ℚ)

theorem rhe_intCast (k : ℤ) : rhe (k : ℚ) = k := by
  simp [rhe]

theorem round2_zero : round2 0 = 0 := by
  have h : rhe ((0 : ℚ)) = 0 := by
    simpa using rhe_intCast 0
  rw [round2]
  norm_num [h]

theorem round2_eq_self_of_cent {x : ℚ} (h : isCent x) : round2 x = x := by
  obtain ⟨k, hk⟩ := h
  have hx : x = (k : ℚ) / 100 := by
    field_simp at hk ⊢
    linarith
  subst hx
  have h100 : ((k : ℚ) / 100) * 100 = (k : ℚ) := by
    field_simp
  rw [round2, h100, rhe_intCast]

theorem isCent_add {x y : ℚ} (hx : isCent x) (hy : isCent y) : isCent (x + y) := by
  obtain ⟨k, hk⟩ := hx
  obtain ⟨m, hm⟩ := hy
  exact ⟨k + m, by push_cast; linarith⟩

theorem isCent_sub {x y : ℚ} (hx : isCent x) (hy : isCent y) : isCent (x - y) := by
  obtain ⟨k, hk⟩ := hx
  obtain ⟨m, hm⟩ := hy
  exact ⟨k - m, by push_cast; linarith⟩

theorem isCent_max_zero {x : ℚ} (hx : isCent x) : isCent (max 0 x) := by
  rcases le_total x 0 with h | h
  · rw [max_eq_left h]; exact ⟨0, by norm_num⟩
  · rwa [max_eq_right h]

theorem rhe_mono {x y : ℚ} (h : x ≤ y) : rhe x ≤ rhe y := by
  have hfx : (⌊x⌋ : ℚ) ≤ x := Int.floor_le x
  have hfy : (⌊y⌋ : ℚ) ≤ y := Int.floor_le y
  have hfle : ⌊x⌋ ≤ ⌊y⌋ := Int.floor_le_floor h
  rcases lt_or_eq_of_le hfle with hlt | heq
  · -- different integer parts: rhe x ≤ ⌊x⌋ + 1 ≤ ⌊y⌋ ≤ rhe y
    have h1 : rhe x ≤ ⌊x⌋ + 1 := by
      unfold rhe; split_ifs <;> omega
    have h2 : ⌊y⌋ ≤ rhe y := by
      unfold rhe; split_ifs <;> omega
    omega
  · -- same integer part: compare fractional parts
    have hr : x - ⌊x⌋ ≤ y - ⌊y⌋ := by
      rw [← heq]; linarith
    unfold rhe
    rw [← heq]
    split_ifs <;> first | omega | (exfalso; linarith)

theorem round2_mono {x y : ℚ} (h : x ≤ y) : round2 x ≤ round2 y := by
  have : rhe (x * 100) ≤ rhe (y * 100) := rhe_mono (by linarith)
  unfold round2
  have hcast : (rhe (x * 100) : ℚ) ≤ (rhe (y * 100) : ℚ) := by exact_mod_cast this
  linarith

/-- ASCII lowercase of one character (Python `str.lower` on the ASCII
strings the engine compares). -/
def lowerChar (c : Char) : Char :=
  if c.toNat ≥ 65 ∧ c.toNat ≤ 90 then Char.ofNat (c.toNat + 32) else c

/-- Python `s.lower()`. -/
def lowerStr (s : String) : String := ⟨s.data.map lowerChar⟩

/-- Python `s.strip()`. -/
def trimStr (s : String) : String :=
  ⟨((s.data.dropWhile fun c => c.isWhitespace).reverse.dropWhile fun c => c.isWhitespace).reverse⟩

/-- Fatty-acid profile: the eight keys of every static oil's `fa` dict
(`src/data/oils.py`). -/
structure FAProfile where
  lauric : ℚ
  myristic : ℚ
  palmitic : ℚ
  stearic : ℚ
  ricinoleic : ℚ
  oleic : ℚ
  linoleic : ℚ
  linolenic : ℚ

/-- The `fa.get(k, 0.0)` result for a missing `fa` dict. -/
def zeroFA : FAProfile := ⟨0, 0, 0, 0, 0, 0, 0, 0⟩

/-- The five SoapCalc quality scores. -/
structure Qualities where
  hardness : ℚ
  cleansing : ℚ
  bubbly : ℚ
  creamy : ℚ
  conditioning : ℚ

/-- One entry of the `OILS` dict: every static record carries exactly
the numeric keys `sap_koh`, `sap_naoh`, `iodine`, `ins`, plus `fa`
and a `qualities` dict (either computed via `_calc_qualities` at import
time or an explicit exception table). -/
structure OilRecord where
  sap_koh : ℚ
  sap_naoh : ℚ
  iodine : ℚ
  ins : ℚ
  fa : FAProfile
  qualities : Option Qualities

/-- Python `OILS[name].get(key, 0.0)` over the numeric keys a static oil
record carries; any other key yields the default `0.0`. -/
def OilRecord.getNum (r : OilRecord) (key : String) : ℚ :=
  if key = "sap_koh" then r.sap_koh
  else if key = "sap_naoh" then r.sap_naoh
  else if key = "iodine" then r.iodine
  else if key = "ins" then r.ins
  else 0

abbrev OilDB := List (String × OilRecord)

def lookupOil (db : OilDB) (name : String) : Option OilRecord :=
  (db.find? fun p => p.1 == name).map Prod.snd

/-- `_calc_qualities` from `src/data/oils.py`: the five fixed linear
combinations of the fatty-acid profile. -/
def calc_qualities (fa : FAProfile) : Qualities :=
  { hardness := fa.lauric + fa.myristic + fa.palmitic + fa.stearic
    cleansing := fa.lauric + fa.myristic
    bubbly := fa.lauric + fa.myristic + fa.ricinoleic
    creamy := fa.palmitic + fa.stearic + fa.ricinoleic
    conditioning := fa.ricinoleic + fa.oleic + fa.linoleic + fa.linolenic }

/-- `get_oil_sap` builds the dict key `"sap_" + lye_type.lower()`. -/
def sapKey (lye_type : String) : String := "sap_" ++ lowerStr lye_type

/-- `get_oil_sap` from `src/data/oils.py` (lines 833-838). -/
def get_oil_sap (db : OilDB) (oil_name lye_type : String) : ℚ :=
  match lookupOil db oil_name with
  | none => 0
  | some r => r.getNum (sapKey lye_type)

/-- One entry of the `ADDITIVES` dict (`src/data/additives.py`);
the `description` string plays no computational role. -/
structure AdditiveRecord where
  water_percent_adjust : ℚ
  default_percent_of_oils : ℚ
  is_water_replacement : Bool

abbrev AdditiveDB := List (String × AdditiveRecord)

/-- The static `ADDITIVES` table from `src/data/additives.py`. -/
def ADDITIVES : AdditiveDB :=
  [("Goat Milk (Liquid)", ⟨0, 0, true⟩),
   ("Goat Milk (Powder)", ⟨0, 1, false⟩),
   ("Coconut Milk (Liquid)", ⟨0, 0, true⟩),
   ("Honey", ⟨0, 2, false⟩),
   ("Sugar", ⟨0, 1, false⟩),
   ("Salt", ⟨0, 1, false⟩),
   ("Kaolin Clay", ⟨0, 1, false⟩),
   ("Sodium Lactate", ⟨0, 3, false⟩),
   ("Fragrance / Essential Oil", ⟨0, 3, false⟩)]

def lookupAdditive (adb : AdditiveDB) (name : String) : Option AdditiveRecord :=
  (adb.find? fun p => p.1 == name).map Prod.snd

/-- `ADDITIVES.get(name, {}).get("water_percent_adjust", 0.0)`. -/
def additiveAdjust (adb : AdditiveDB) (name : String) : ℚ :=
  match lookupAdditive adb name with
  | none => 0
  | some r => r.water_percent_adjust

/-- `ADDITIVES.get(name, {}).get("is_water_replacement", False)`. -/
def additiveIsReplacement (adb : AdditiveDB) (name : String) : Bool :=
  match lookupAdditive adb name with
  | none => false
  | some r => r.is_water_replacement

/-- Python dict assignment `d[k] = v`: overwrite in place if the key is
present, otherwise append at the end. -/
def upsert (l : List (String × ℚ)) (k : String) (v : ℚ) : List (String × ℚ) :=
  if l.any (fun p => p.1 == k) then
    l.map (fun p => if p.1 == k then (k, v) else p)
  else l ++ [(k, v)]

/-- Python `del d[k]` (no-op when the key is absent, as in the engine's
guarded uses). -/
def removeKey (l : List (String × ℚ)) (k : String) : List (String × ℚ) :=
  l.filter (fun p => !(p.1 == k))

/-- The working state of `SoapCalculator` (`src/models/calculator.py`),
with the `__init__` defaults captured by `initCalc`. -/
structure SoapCalculator where
  oils : List (String × ℚ)
  superfat_percent : ℚ
  water_to_lye_ratio : ℚ
  lye_type : String
  total_batch_weight : ℚ
  unit_system : String
  water_calc_method : String
  water_percent : ℚ
  lye_concentration : ℚ
  additives : List (String × ℚ)

/-- `SoapCalculator.__init__`. -/
def initCalc : SoapCalculator :=
  { oils := []
    superfat_percent := 5
    water_to_lye_ratio := 2
    lye_type := "NaOH"
    total_batch_weight := 0
    unit_system := "grams"
    water_calc_method := "ratio"
    water_percent := 30
    lye_concentration := 33
    additives := [] }

/-- `SoapCalculator.add_oil`. -/
def add_oil (c : SoapCalculator) (oil_name : String) (weight : ℚ) : SoapCalculator :=
  if 0 < weight then { c with oils := upsert c.oils oil_name weight }
  else { c with oils := removeKey c.oils oil_name }

/-- `SoapCalculator.get_total_oil_weight`. -/
def get_total_oil_weight (c : SoapCalculator) : ℚ := (c.oils.map Prod.snd).sum

/-- The `pure_lye` accumulation loop inside `get_lye_weight`. -/
def pure_lye (db : OilDB) (c : SoapCalculator) : ℚ :=
  (c.oils.map (fun p => p.2 * get_oil_sap db p.1 c.lye_type)).sum

/-- `SoapCalculator.get_lye_weight` (lines 38-63). -/
def get_lye_weight (db : OilDB) (c : SoapCalculator) : ℚ :=
  if get_total_oil_weight c = 0 then 0
  else
    let lw := pure_lye db c * (1 - c.superfat_percent / 100)
    round2 (if c.lye_type = "90% KOH" then lw / (90/100) else lw)

/-- The `additive_adjust` accumulation loop inside `get_water_weight`. -/
def additive_adjust_total (adb : AdditiveDB) (additives : List (String × ℚ)) : ℚ :=
  (additives.map (fun p => additiveAdjust adb p.1)).sum

/-- The `replacement_total` accumulation loop inside `get_water_weight`. -/
def replacement_total (adb : AdditiveDB) (additives : List (String × ℚ)) : ℚ :=
  (additives.map (fun p => if additiveIsReplacement adb p.1 then p.2 else 0)).sum

/-- The method branch of `get_water_weight` (the `water_weight` value
before replacement subtraction, flooring and rounding). -/
def nominal_water (db : OilDB) (adb : AdditiveDB) (c : SoapCalculator) : ℚ :=
  if c.water_calc_method = "ratio" then
    get_lye_weight db c * c.water_to_lye_ratio
  else if c.water_calc_method = "percent" then
    get_total_oil_weight c * (max 0 (c.water_percent + additive_adjust_total adb c.additives) / 100)
  else if c.water_calc_method = "concentration" then
    if 0 < c.lye_concentration ∧ c.lye_concentration < 100 then
      get_lye_weight db c * (100 / c.lye_concentration - 1)
    else 0
  else get_lye_weight db c * c.water_to_lye_ratio

/-- `SoapCalculator.get_water_weight` (lines 65-112). -/
def get_water_weight (db : OilDB) (adb : AdditiveDB) (c : SoapCalculator) : ℚ :=
  if get_lye_weight db c = 0 then 0
  else round2 (max 0 (nominal_water db adb c - replacement_total adb c.additives))

/-- `SoapCalculator.add_additive`. -/
def add_additive (c : SoapCalculator) (name : String) (amount : ℚ) : SoapCalculator :=
  if 0 < amount then { c with additives := upsert c.additives name amount }
  else { c with additives := removeKey c.additives name }

/-- `OILS.get(oil_name, {}).get("fa", {})` with per-key default 0. -/
def faOf (db : OilDB) (name : String) : FAProfile :=
  match lookupOil db name with
  | none => zeroFA
  | some r => r.fa

/-- One `fa_totals[k]` accumulation of `get_batch_properties`. -/
def fa_total (db : OilDB) (c : SoapCalculator) (sel : FAProfile → ℚ) : ℚ :=
  (c.oils.map (fun p => p.2 * (sel (faOf db p.1) / 100))).sum

/-- One `fa_percentages[k]` entry of `get_batch_properties`. -/
def fa_pct (db : OilDB) (c : SoapCalculator) (sel : FAProfile → ℚ) : ℚ :=
  if 0 < get_total_oil_weight c then
    round2 (fa_total db c sel / get_total_oil_weight c * 100)
  else 0

/-- `SoapCalculator._calculate_iodine_value`.  Each record is read with
`.get("iodine_value", 0)`; no static record carries that key (they store
`iodine`), so every tracked oil contributes 0. -/
def calculate_iodine_value (db : OilDB) (c : SoapCalculator) : ℚ :=
  if get_total_oil_weight c = 0 then 0
  else (c.oils.map (fun p =>
    match lookupOil db p.1 with
    | none => 0
    | some r => p.2 / get_total_oil_weight c * r.getNum "iodine_value")).sum

/-- `SoapCalculator._calculate_saponification_number`. -/
def calculate_saponification_number (db : OilDB) (c : SoapCalculator) : ℚ :=
  if get_total_oil_weight c = 0 then 0
  else if 0 < get_total_oil_weight c then
    (c.oils.map (fun p => p.2 * get_oil_sap db p.1 c.lye_type)).sum
      / get_total_oil_weight c * 1000
  else 0

/-- The dictionary returned by `SoapCalculator.get_batch_properties`. -/
structure BatchProperties where
  total_oil_weight : ℚ
  lye_weight : ℚ
  water_weight : ℚ
  total_batch_weight : ℚ
  lye_percentage : ℚ
  water_percentage : ℚ
  iodine_value : ℚ
  ins_value : ℚ
  fa_breakdown : FAProfile

/-- `SoapCalculator.get_batch_properties` (lines 125-173). -/
def get_batch_properties (db : OilDB) (adb : AdditiveDB) (c : SoapCalculator) : BatchProperties :=
  let total_oil := get_total_oil_weight c
  let lye := get_lye_weight db c
  let water := get_water_weight db adb c
  let iodine := calculate_iodine_value db c
  let sap_number := calculate_saponification_number db c
  { total_oil_weight := round2 total_oil
    lye_weight := lye
    water_weight := water
    total_batch_weight := round2 (total_oil + lye + water)
    lye_percentage := round2 (if 0 < total_oil then lye / total_oil * 100 else 0)
    water_percentage := round2 (if 0 < total_oil then water / total_oil * 100 else 0)
    iodine_value := round2 iodine
    ins_value := round2 (sap_number - iodine)
    fa_breakdown :=
      { lauric := fa_pct db c (fun fa => fa.lauric)
        myristic := fa_pct db c (fun fa => fa.myristic)
        palmitic := fa_pct db c (fun fa => fa.palmitic)
        stearic := fa_pct db c (fun fa => fa.stearic)
        ricinoleic := fa_pct db c (fun fa => fa.ricinoleic)
        oleic := fa_pct db c (fun fa => fa.oleic)
        linoleic := fa_pct db c (fun fa => fa.linoleic)
        linolenic := fa_pct db c (fun fa => fa.linolenic) } }

/-- `SoapCalculator.scale_recipe` (lines 207-222). -/
def scale_recipe (c : SoapCalculator) (new_batch_weight : ℚ) : SoapCalculator :=
  if get_total_oil_weight c = 0 then c
  else
    { c with
      oils := c.oils.map
        (fun p => (p.1, round2 (p.2 * (new_batch_weight / get_total_oil_weight c))))
      total_batch_weight := new_batch_weight }

/-- `SoapCalculator.set_superfat`. -/
def set_superfat (c : SoapCalculator) (percent : ℚ) : SoapCalculator :=
  { c with superfat_percent := max 0 (min 100 percent) }

/-- `q.get(key, 0)` / `oil_data.get("qualities")` resolution in
`SoapMath.calculate_qualities`: a missing or empty `qualities` dict
falls back on `_calc_qualities` of the oil's fatty-acid profile. -/
def oilQuality (r : OilRecord) : Qualities :=
  match r.qualities with
  | none => calc_qualities r.fa
  | some q => q

/-- The dictionary `SoapMath.calculate_qualities` populates when the
total weight is nonzero. -/
structure QualityResult where
  hardness : ℚ
  cleansing : ℚ
  bubbly : ℚ
  creamy : ℚ
  conditioning : ℚ
  iodine : ℚ
  ins : ℚ

/-- One weighted component accumulation of `SoapMath.calculate_qualities`
(unknown oils are skipped by the `continue`). -/
def quality_sum (db : OilDB) (oils : List (String × ℚ)) (total : ℚ)
    (sel : OilRecord → ℚ) : ℚ :=
  (oils.map (fun p =>
    match lookupOil db p.1 with
    | none => 0
    | some r => sel r * (p.2 / total))).sum

/-- `SoapMath.calculate_qualities` (`src/data/oils.py` lines 891-925):
returns the empty dict (`none`) when the total weight is 0. -/
def calculate_qualities (db : OilDB) (oils : List (String × ℚ)) : Option QualityResult :=
  let total := (oils.map Prod.snd).sum
  if total = 0 then none
  else some
    { hardness := quality_sum db oils total (fun r => (oilQuality r).hardness)
      cleansing := quality_sum db oils total (fun r => (oilQuality r).cleansing)
      bubbly := quality_sum db oils total (fun r => (oilQuality r).bubbly)
      creamy := quality_sum db oils total (fun r => (oilQuality r).creamy)
      conditioning := quality_sum db oils total (fun r => (oilQuality r).conditioning)
      iodine := quality_sum db oils total (fun r => r.getNum "iodine")
      ins := quality_sum db oils total (fun r => r.getNum "ins") }

/-- Reading one score out of the `calculate_qualities` result with
`.get(key, 0)`; the empty dict (`none`) reads as 0 for every key. -/
def qualityGet (res : Option QualityResult) (key : String) : ℚ :=
  match res with
  | none => 0
  | some q =>
    if key = "hardness" then q.hardness
    else if key = "cleansing" then q.cleansing
    else if key = "bubbly" then q.bubbly
    else if key = "creamy" then q.creamy
    else if key = "conditioning" then q.conditioning
    else if key = "iodine" then q.iodine
    else if key = "ins" then q.ins
    else 0

/-- The dictionary returned by `SoapCalculator.get_recipe_dict`
(lines 307-319). -/
structure RecipeDict where
  oils : List (String × ℚ)
  superfat_percent : ℚ
  water_to_lye_ratio : ℚ
  lye_type : String
  unit_system : String
  water_calc_method : String
  water_percent : ℚ
  lye_concentration : ℚ
  properties : BatchProperties

/-- `SoapCalculator.get_recipe_dict`. -/
def get_recipe_dict (db : OilDB) (adb : AdditiveDB) (c : SoapCalculator) : RecipeDict :=
  { oils := c.oils
    superfat_percent := c.superfat_percent
    water_to_lye_ratio := c.water_to_lye_ratio
    lye_type := c.lye_type
    unit_system := c.unit_system
    water_calc_method := c.water_calc_method
    water_percent := c.water_percent
    lye_concentration := c.lye_concentration
    properties := get_batch_properties db adb c }

/-- An input record for `load_recipe_dict`: each of the keys the loader
reads may be present or missing. -/
structure RecipeData where
  oils : Option (List (String × ℚ))
  superfat_percent : Option ℚ
  water_to_lye_ratio : Option ℚ
  lye_type : Option String
  unit_system : Option String
  water_calc_method : Option String
  water_percent : Option ℚ
  lye_concentration : Option ℚ

/-- A record with every field missing (`{}`). -/
def emptyRecipeData : RecipeData :=
  ⟨none, none, none, none, none, none, none, none⟩

/-- A saved recipe dict, viewed as loader input (every key present;
the loader never reads `properties`). -/
def recipeDictToData (r : RecipeDict) : RecipeData :=
  ⟨some r.oils, some r.superfat_percent, some r.water_to_lye_ratio, some r.lye_type,
   some r.unit_system, some r.water_calc_method, some r.water_percent,
   some r.lye_concentration⟩

/-- `SoapCalculator.load_recipe_dict` (lines 321-330): fills missing
fields with the `recipe_data.get(...)` defaults and leaves the fields it
does not read (notably `additives`) untouched. -/
def load_recipe_dict (c : SoapCalculator) (d : RecipeData) : SoapCalculator :=
  { c with
    oils := d.oils.getD []
    superfat_percent := d.superfat_percent.getD 5
    water_to_lye_ratio := d.water_to_lye_ratio.getD 2
    lye_type := d.lye_type.getD "NaOH"
    unit_system := d.unit_system.getD "grams"
    water_calc_method := d.water_calc_method.getD "ratio"
    water_percent := d.water_percent.getD 30
    lye_concentration := d.lye_concentration.getD 33 }

/-- One entry of `CostManager.costs` (`src/models/cost_manager.py`). -/
structure CostRecord where
  price : ℚ
  quantity : ℚ
  unit : String

abbrev CostStore := List (String × CostRecord)

def lookupCost (costs : CostStore) (name : String) : Option CostRecord :=
  (costs.find? fun p => p.1 == name).map Prod.snd

/-- Dict assignment on the cost store. -/
def upsertCost (costs : CostStore) (k : String) (v : CostRecord) : CostStore :=
  if costs.any (fun p => p.1 == k) then
    costs.map (fun p => if p.1 == k then (k, v) else p)
  else costs ++ [(k, v)]

/-- `CostManager._convert_to_grams` (volume units under the documented
density-of-1 approximation; unknown units pass through). -/
def convert_to_grams (amount : ℚ) (unit : String) : ℚ :=
  let u := trimStr (lowerStr unit)
  if u = "g" ∨ u = "grams" ∨ u = "gram" then amount
  else if u = "oz" ∨ u = "ounces" ∨ u = "ounce" then amount * (283495/10000)
  else if u = "lb" ∨ u = "lbs" ∨ u = "pounds" ∨ u = "pound" then amount * (453592/1000)
  else if u = "kg" ∨ u = "kilograms" ∨ u = "kilogram" then amount * 1000
  else if u = "ml" ∨ u = "milliliters" then amount
  else if u = "l" ∨ u = "liters" ∨ u = "liter" then amount * 1000
  else if u = "gal" ∨ u = "gallons" ∨ u = "gallon" then amount * (378541/100)
  else if u = "fl oz" ∨ u = "fluid ounces" then amount * (295735/10000)
  else amount

/-- `CostManager._convert_from_grams`. -/
def convert_from_grams (grams : ℚ) (unit : String) : ℚ :=
  let u := trimStr (lowerStr unit)
  if u = "g" ∨ u = "grams" ∨ u = "gram" then grams
  else if u = "oz" ∨ u = "ounces" ∨ u = "ounce" then grams / (283495/10000)
  else if u = "lb" ∨ u = "lbs" ∨ u = "pounds" ∨ u = "pound" then grams / (453592/1000)
  else if u = "kg" ∨ u = "kilograms" ∨ u = "kilogram" then grams / 1000
  else if u = "ml" ∨ u = "milliliters" then grams
  else if u = "l" ∨ u = "liters" ∨ u = "liter" then grams / 1000
  else if u = "gal" ∨ u = "gallons" ∨ u = "gallon" then grams / (378541/100)
  else if u = "fl oz" ∨ u = "fluid ounces" then grams / (295735/10000)
  else grams

/-- `CostManager.set_cost`. -/
def set_cost (costs : CostStore) (name : String) (price quantity : ℚ)
    (unit : String) : CostStore :=
  upsertCost costs name ⟨price, quantity, unit⟩

/-- `CostManager.add_stock` (lines 55-82): weighted-average restock,
normalizing the stored entry to grams and rounding both running totals
to 2 decimals. -/
def add_stock (costs : CostStore) (name : String) (price quantity : ℚ)
    (unit : String) : CostStore :=
  match lookupCost costs name with
  | none => set_cost costs name price quantity unit
  | some d =>
    let current_grams := convert_to_grams d.quantity d.unit
    let added_grams := convert_to_grams quantity unit
    upsertCost costs name
      ⟨round2 (d.price + price), round2 (current_grams + added_grams), "grams"⟩

/-- `CostManager.get_cost_per_gram` (lines 88-106). -/
def get_cost_per_gram (costs : CostStore) (name : String) : ℚ :=
  match lookupCost costs name with
  | none => 0
  | some d =>
    if d.quantity ≤ 0 then 0
    else if convert_to_grams d.quantity d.unit ≤ 0 then 0
    else d.price / convert_to_grams d.quantity d.unit

/-- `CostManager.has_sufficient_stock` (lines 183-194). -/
def has_sufficient_stock (costs : CostStore) (name : String)
    (amount_grams : ℚ) : Bool :=
  match lookupCost costs name with
  | none => true
  | some d => decide (convert_from_grams amount_grams d.unit ≤ d.quantity)

/-- Fatty-acid profile of the `"Olive Oil"` entry of `OILS`
(`src/data/oils.py` lines 461-465). -/
def oliveFA : FAProfile :=
  { lauric := 0, myristic := 0, palmitic := 14, stearic := 3
    ricinoleic := 0, oleic := 69, linoleic := 12, linolenic := 1 }

/-- Fatty-acid profile of the `"Palm Oil"` entry of `OILS`
(lines 486-490). -/
def palmFA : FAProfile :=
  { lauric := 0, myristic := 1, palmitic := 44, stearic := 5
    ricinoleic := 0, oleic := 39, linoleic := 10, linolenic := 0 }

/-- The `"Olive Oil"` and `"Palm Oil"` entries of the static `OILS`
table, used for concrete instances; general theorems quantify over the
whole table. -/
def oilsDB : OilDB :=
  [("Olive Oil",
    { sap_koh := 190/1000, sap_naoh := 135/1000, iodine := 85, ins := 105
      fa := oliveFA, qualities := some (calc_qualities oliveFA) }),
   ("Palm Oil",
    { sap_koh := 199/1000, sap_naoh := 142/1000, iodine := 53, ins := 145
      fa := palmFA, qualities := some (calc_qualities palmFA) })]

/-- A one-oil recipe used for concrete instances. -/
def palm100 : SoapCalculator := { initCalc with oils := [("Palm Oil", 100)] }

theorem sapKey_koh90 : sapKey "90% KOH" = "sap_90% koh" := by decide

theorem sapKey_naoh : sapKey "NaOH" = "sap_naoh" := by decide

/-- No static oil record carries the key `"sap_90% koh"`, so the
`.get(key, 0.0)` lookup defaults to 0. -/
theorem getNum_koh90 (r : OilRecord) : r.getNum "sap_90% koh" = 0 := by
  simp [OilRecord.getNum]

theorem koh90_sap_zero (db : OilDB) (name : String) :
    get_oil_sap db name "90% KOH" = 0 := by
  unfold get_oil_sap
  cases lookupOil db name with
  | none => rfl
  | some r => exact getNum_koh90 r

/-- Claim C1: the spec says a 90%-KOH recipe's lye weight is the
`sap_koh`-based demand discounted by superfat and divided by 0.90.  In
the code, `get_oil_sap` builds the key `"sap_90% koh"`, which no oil
record carries, so every SAP lookup returns 0 and `get_lye_weight`
returns 0 for every recipe whose lye type is `"90% KOH"`. -/
theorem c1_lye_weight_koh90_always_zero (db : OilDB) (c : SoapCalculator)
    (h : c.lye_type = "90% KOH") : get_lye_weight db c = 0 := by
  unfold get_lye_weight
  have hp : pure_lye db c = 0 := by
    unfold pure_lye
    refine List.sum_eq_zero ?_
    intro x hx
    obtain ⟨p, _, rfl⟩ := List.mem_map.mp hx
    rw [h, koh90_sap_zero, mul_zero]
  rw [hp]
  simp [h, round2_zero]

/-- Witness for C1 at the failing input: 100 g of Olive Oil at the
default 5% superfat with lye type `"90% KOH"` yields lye weight 0
(the spec's formula would give `round2(100*0.190*0.95/0.90) = 20.06`). -/
theorem c1_lye_weight_koh90_witness :
    ({ palm100 with oils := [("Olive Oil", 100)], lye_type := "90% KOH" } : SoapCalculator).lye_type = "90% KOH" ∧
    get_lye_weight oilsDB { palm100 with oils := [("Olive Oil", 100)], lye_type := "90% KOH" } = 0 :=
  ⟨rfl, c1_lye_weight_koh90_always_zero oilsDB
    { palm100 with oils := [("Olive Oil", 100)], lye_type := "90% KOH" } rfl⟩

/-- Claim C2 (amended): saving with `get_recipe_dict` and loading into a
fresh calculator reproduces the oil map, superfat, lye type, water
method and its numeric parameters — but not the additive map, which
`get_recipe_dict` does not serialize and `load_recipe_dict` does not
restore: the fresh calculator's additive map stays empty. -/
theorem c2_roundtrip_fields (db : OilDB) (adb : AdditiveDB) (c : SoapCalculator) :
    (load_recipe_dict initCalc (recipeDictToData (get_recipe_dict db adb c))).oils = c.oils ∧
    (load_recipe_dict initCalc (recipeDictToData (get_recipe_dict db adb c))).superfat_percent = c.superfat_percent ∧
    (load_recipe_dict initCalc (recipeDictToData (get_recipe_dict db adb c))).lye_type = c.lye_type ∧
    (load_recipe_dict initCalc (recipeDictToData (get_recipe_dict db adb c))).water_calc_method = c.water_calc_method ∧
    (load_recipe_dict initCalc (recipeDictToData (get_recipe_dict db adb c))).water_to_lye_ratio = c.water_to_lye_ratio ∧
    (load_recipe_dict initCalc (recipeDictToData (get_recipe_dict db adb c))).water_percent = c.water_percent ∧
    (load_recipe_dict initCalc (recipeDictToData (get_recipe_dict db adb c))).lye_concentration = c.lye_concentration ∧
    (load_recipe_dict initCalc (recipeDictToData (get_recipe_dict db adb c))).additives = [] :=
  ⟨rfl, rfl, rfl, rfl, rfl, rfl, rfl, rfl⟩

/-- Counterexample to C2 as stated: a calculator holding the additive
Honey at 10 g round-trips to a fresh calculator with an empty additive
map, not an equal one. -/
theorem c2_roundtrip_counterexample :
    (load_recipe_dict initCalc (recipeDictToData (get_recipe_dict oilsDB ADDITIVES
        { initCalc with additives := [("Honey", 10)] }))).additives ≠
      ({ initCalc with additives := [("Honey", 10)] } : SoapCalculator).additives := by
  simp [load_recipe_dict, recipeDictToData, get_recipe_dict, initCalc]

/-- Claim C3 (amended): `load_recipe_dict` fills each missing field with
its code default — superfat 5%, water:lye ratio 2.0, lye type `"NaOH"`,
water method `"ratio"`, water percent 30% (not 38%), lye concentration
33% (not 30%), unit system `"grams"`, empty oil map. -/
theorem c3_load_defaults (c : SoapCalculator) (d : RecipeData) :
    (d.superfat_percent = none → (load_recipe_dict c d).superfat_percent = 5) ∧
    (d.water_to_lye_ratio = none → (load_recipe_dict c d).water_to_lye_ratio = 2) ∧
    (d.lye_type = none → (load_recipe_dict c d).lye_type = "NaOH") ∧
    (d.water_calc_method = none → (load_recipe_dict c d).water_calc_method = "ratio") ∧
    (d.water_percent = none → (load_recipe_dict c d).water_percent = 30) ∧
    (d.lye_concentration = none → (load_recipe_dict c d).lye_concentration = 33) ∧
    (d.unit_system = none → (load_recipe_dict c d).unit_system = "grams") ∧
    (d.oils = none → (load_recipe_dict c d).oils = []) := by
  refine ⟨?_, ?_, ?_, ?_, ?_, ?_, ?_, ?_⟩ <;>
    · intro h
      simp [load_recipe_dict, h]

/-- Witness for C3 (amended): loading the empty record into a fresh
calculator produces exactly the code defaults. -/
theorem c3_load_defaults_witness :
    (load_recipe_dict initCalc emptyRecipeData).superfat_percent = 5 ∧
    (load_recipe_dict initCalc emptyRecipeData).water_to_lye_ratio = 2 ∧
    (load_recipe_dict initCalc emptyRecipeData).lye_type = "NaOH" ∧
    (load_recipe_dict initCalc emptyRecipeData).water_percent = 30 ∧
    (load_recipe_dict initCalc emptyRecipeData).lye_concentration = 33 := by
  have h := c3_load_defaults initCalc emptyRecipeData
  exact ⟨h.1 rfl, h.2.1 rfl, h.2.2.1 rfl, h.2.2.2.2.1 rfl, h.2.2.2.2.2.1 rfl⟩

/-- Counterexample to C3 as stated: loading an empty record yields
water percent 30 and lye concentration 33, not the claimed 38 and 30. -/
theorem c3_defaults_counterexample :
    ¬ ((load_recipe_dict initCalc emptyRecipeData).water_percent = 38 ∧
       (load_recipe_dict initCalc emptyRecipeData).lye_concentration = 30) := by
  intro h
  have h1 := h.1
  simp [load_recipe_dict, emptyRecipeData] at h1

/-- Claim C10: an ingredient absent from the cost store never blocks —
`has_sufficient_stock` returns `True` for any requested amount. -/
theorem c10_untracked_always_sufficient (costs : CostStore) (name : String)
    (amount_grams : ℚ) (h : lookupCost costs name = none) :
    has_sufficient_stock costs name amount_grams = true := by
  unfold has_sufficient_stock
  rw [h]

/-- Witness for C10: the empty store treats 500 g of Shea Butter as
available. -/
theorem c10_untracked_witness :
    has_sufficient_stock [] "Shea Butter" 500 = true :=
  c10_untracked_always_sufficient [] "Shea Butter" 500 rfl

/-- Claim C5: a recipe with total oil weight 0 reports lye 0, water 0,
an all-zero fatty-acid breakdown, and an all-zero quality vector (the
aggregator returns the empty dict, so every `.get(key, 0)` read is 0);
each of these is produced by the explicit zero-guard branch, so no
division by zero is reached. -/
theorem c5_degenerate_recipe_zeroes (db : OilDB) (adb : AdditiveDB)
    (c : SoapCalculator) (h : get_total_oil_weight c = 0) :
    get_lye_weight db c = 0 ∧
    get_water_weight db adb c = 0 ∧
    (get_batch_properties db adb c).fa_breakdown = zeroFA ∧
    ∀ key, qualityGet (calculate_qualities db c.oils) key = 0 := by
  have hlye : get_lye_weight db c = 0 := by
    unfold get_lye_weight
    rw [if_pos h]
  have hwater : get_water_weight db adb c = 0 := by
    unfold get_water_weight
    rw [if_pos hlye]
  refine ⟨hlye, hwater, ?_, ?_⟩
  · have hfa : ∀ sel, fa_pct db c sel = 0 := by
      intro sel
      simp [fa_pct, h]
    simp [get_batch_properties, zeroFA, hfa]
  · intro key
    have ht : (c.oils.map Prod.snd).sum = 0 := h
    simp [calculate_qualities, ht, qualityGet]

/-- Witness for C5 at the empty recipe. -/
theorem c5_degenerate_recipe_witness :
    get_lye_weight oilsDB initCalc = 0 ∧
    get_water_weight oilsDB ADDITIVES initCalc = 0 ∧
    (get_batch_properties oilsDB ADDITIVES initCalc).fa_breakdown = zeroFA ∧
    qualityGet (calculate_qualities oilsDB initCalc.oils) "hardness" = 0 := by
  have h := c5_degenerate_recipe_zeroes oilsDB ADDITIVES initCalc rfl
  exact ⟨h.1, h.2.1, h.2.2.1, h.2.2.2 "hardness"⟩

/-- Claim C9: `scale_recipe(t)` is a no-op when the current oil total is
0; it never touches the additive map; otherwise it maps each oil weight
`w` to `round2(w * (t / total))`; and scaling to the current total maps
each weight `w` to `round2 w` (unchanged up to 2-decimal rounding). -/
theorem c9_scale_recipe_shape (c : SoapCalculator) (t : ℚ) :
    (get_total_oil_weight c = 0 → scale_recipe c t = c) ∧
    (scale_recipe c t).additives = c.additives ∧
    (get_total_oil_weight c ≠ 0 → (scale_recipe c t).oils =
      c.oils.map (fun p => (p.1, round2 (p.2 * (t / get_total_oil_weight c))))) ∧
    (get_total_oil_weight c ≠ 0 → (scale_recipe c (get_total_oil_weight c)).oils =
      c.oils.map (fun p => (p.1, round2 p.2))) := by
  refine ⟨?_, ?_, ?_, ?_⟩
  · intro h
    unfold scale_recipe
    rw [if_pos h]
  · unfold scale_recipe
    split_ifs <;> rfl
  · intro h
    unfold scale_recipe
    rw [if_neg h]
  · intro h
    unfold scale_recipe
    rw [if_neg h]
    have hdiv : get_total_oil_weight c / get_total_oil_weight c = 1 := div_self h
    simp only [hdiv, mul_one]

/-- Witness for C9: scaling 100 g of Palm Oil to 37 g gives exactly
37 g, additives untouched, and scaling the empty recipe is a no-op. -/
theorem c9_scale_recipe_witness :
    (scale_recipe palm100 37).oils = [("Palm Oil", (37 : ℚ))] ∧
    (scale_recipe palm100 37).additives = palm100.additives ∧
    scale_recipe initCalc 37 = initCalc := by
  have h := c9_scale_recipe_shape palm100 37
  have h0 := c9_scale_recipe_shape initCalc 37
  refine ⟨?_, h.2.1, h0.1 rfl⟩
  have h3 := h.2.2.1 (by simp [palm100, initCalc, get_total_oil_weight])
  rw [h3]
  simp [palm100, initCalc, get_total_oil_weight]
  rw [round2, rhe]
  norm_num

/-- Overwriting the value stored under key `k` leaves a per-entry sum
unchanged whenever every entry keyed `k` contributes 0 to it. -/
theorem sum_map_upsert (l : List (String × ℚ)) (k : String) (v : ℚ)
    (f : String × ℚ → ℚ) (hk : ∀ w, f (k, w) = 0) :
    ((upsert l k v).map f).sum = (l.map f).sum := by
  unfold upsert
  split_ifs with h
  · clear h
    induction l with
    | nil => rfl
    | cons p t ih =>
      simp only [List.map_cons, List.sum_cons, ih]
      by_cases hp : p.1 = k
      · have hfp : f p = 0 := by
          have hpk : p = (k, p.2) := by
            rw [← hp]
          rw [hpk]
          exact hk p.2
        have hbeq : (p.1 == k) = true := by simpa using hp
        simp [hbeq, hfp, hk v]
      · have hbeq : (p.1 == k) = false := by simpa using hp
        simp [hbeq]
  · simp [hk v]

/-- Adding a non-water-replacement additive with zero water-percent
adjustment does not change `get_water_weight`. -/
theorem water_weight_add_nonreplacement (db : OilDB) (adb : AdditiveDB)
    (c : SoapCalculator) (name : String) (amount : ℚ)
    (hrep : additiveIsReplacement adb name = false)
    (hadj : additiveAdjust adb name = 0)
    (hpos : 0 < amount) :
    get_water_weight db adb (add_additive c name amount) = get_water_weight db adb c := by
  have hadd : add_additive c name amount =
      { c with additives := upsert c.additives name amount } := by
    unfold add_additive
    rw [if_pos hpos]
  rw [hadd]
  have hadj' : additive_adjust_total adb (upsert c.additives name amount) =
      additive_adjust_total adb c.additives := by
    unfold additive_adjust_total
    exact sum_map_upsert _ _ _ _ (fun w => hadj)
  have hrep' : replacement_total adb (upsert c.additives name amount) =
      replacement_total adb c.additives := by
    unfold replacement_total
    refine sum_map_upsert _ _ _ _ (fun w => ?_)
    simp [hrep]
  have hlye : get_lye_weight db { c with additives := upsert c.additives name amount } =
      get_lye_weight db c := rfl
  have htot : get_total_oil_weight { c with additives := upsert c.additives name amount } =
      get_total_oil_weight c := rfl
  unfold get_water_weight nominal_water
  simp only [hadj', hrep', hlye, htot]

/-- Claim C4 (amended): the reported total batch weight is
`round2(total_oil + lye + water)`; raw additive mass is not included:
adding a non-water-replacement additive (all static ones carry a zero
water-percent adjustment) leaves the reported total unchanged. -/
theorem c4_total_batch_weight (db : OilDB) (adb : AdditiveDB) (c : SoapCalculator)
    (name : String) (amount : ℚ)
    (hrep : additiveIsReplacement adb name = false)
    (hadj : additiveAdjust adb name = 0)
    (hpos : 0 < amount) :
    (get_batch_properties db adb c).total_batch_weight =
      round2 (get_total_oil_weight c + get_lye_weight db c + get_water_weight db adb c) ∧
    (get_batch_properties db adb (add_additive c name amount)).total_batch_weight =
      (get_batch_properties db adb c).total_batch_weight := by
  constructor
  · rfl
  · have hw := water_weight_add_nonreplacement db adb c name amount hrep hadj hpos
    have h1 : (get_batch_properties db adb (add_additive c name amount)).total_batch_weight =
        round2 (get_total_oil_weight (add_additive c name amount) +
          get_lye_weight db (add_additive c name amount) +
          get_water_weight db adb (add_additive c name amount)) := rfl
    have htot : get_total_oil_weight (add_additive c name amount) = get_total_oil_weight c := by
      unfold add_additive
      split_ifs
      rfl
    have hlye : get_lye_weight db (add_additive c name amount) = get_lye_weight db c := by
      unfold add_additive
      split_ifs
      rfl
    rw [h1, hw, htot, hlye]
    rfl

/-- Claim C6 (amended): with the nominal-then-subtract ordering of the
code, adding a not-yet-present water-replacement additive of weight `W`
(zero water-percent adjustment, as all static replacement additives
have) turns the water weight into `max 0 (water - W)`, for any
water-calculation method, provided `W` and the recipe's pre-rounding
water value are whole numbers of hundredths; for finer weights the
2-decimal rounding can absorb part of the change. -/
theorem c6_water_replacement_subtracts (db : OilDB) (adb : AdditiveDB)
    (c : SoapCalculator) (name : String) (W : ℚ)
    (hrep : additiveIsReplacement adb name = true)
    (hadj : additiveAdjust adb name = 0)
    (hW : isCent W) (hWpos : 0 < W)
    (habs : (c.additives.any fun p => p.1 == name) = false)
    (hcent : isCent (nominal_water db adb c - replacement_total adb c.additives)) :
    get_water_weight db adb (add_additive c name W) =
      max 0 (get_water_weight db adb c - W) := by
  have hadd : add_additive c name W =
      { c with additives := c.additives ++ [(name, W)] } := by
    unfold add_additive
    rw [if_pos hWpos]
    have hup : upsert c.additives name W = c.additives ++ [(name, W)] := by
      unfold upsert
      simp [habs]
    rw [hup]
  rw [hadd]
  have hlye : get_lye_weight db { c with additives := c.additives ++ [(name, W)] } =
      get_lye_weight db c := rfl
  have htot : get_total_oil_weight { c with additives := c.additives ++ [(name, W)] } =
      get_total_oil_weight c := rfl
  have hadj2 : additive_adjust_total adb (c.additives ++ [(name, W)]) =
      additive_adjust_total adb c.additives := by
    unfold additive_adjust_total
    simp [hadj]
  have hrep2 : replacement_total adb (c.additives ++ [(name, W)]) =
      replacement_total adb c.additives + W := by
    unfold replacement_total
    simp [hrep]
  have hnom : nominal_water db adb { c with additives := c.additives ++ [(name, W)] } =
      nominal_water db adb c := by
    unfold nominal_water
    simp only [hadj2, hlye, htot]
  by_cases hl : get_lye_weight db c = 0
  · have hlhs : get_water_weight db adb { c with additives := c.additives ++ [(name, W)] } = 0 := by
      unfold get_water_weight
      rw [hlye, if_pos hl]
    have hrhs : get_water_weight db adb c = 0 := by
      unfold get_water_weight
      rw [if_pos hl]
    rw [hlhs, hrhs]
    have hneg : (0 : ℚ) - W ≤ 0 := by linarith
    rw [max_eq_left hneg]
  · unfold get_water_weight
    rw [hlye, if_neg hl, if_neg hl]
    simp only [hnom, hrep2]
    have hsub : nominal_water db adb c - (replacement_total adb c.additives + W) =
        nominal_water db adb c - replacement_total adb c.additives - W := by
      ring
    rw [hsub]
    have h1 : round2 (max 0 (nominal_water db adb c - replacement_total adb c.additives)) =
        max 0 (nominal_water db adb c - replacement_total adb c.additives) :=
      round2_eq_self_of_cent (isCent_max_zero hcent)
    have h2 : round2 (max 0 (nominal_water db adb c - replacement_total adb c.additives - W)) =
        max 0 (nominal_water db adb c - replacement_total adb c.additives - W) :=
      round2_eq_self_of_cent (isCent_max_zero (isCent_sub hcent hW))
    rw [h1, h2]
    rcases le_total (nominal_water db adb c - replacement_total adb c.additives) 0 with hx | hx
    · rw [max_eq_left hx, max_eq_left (by linarith), max_eq_left (by linarith)]
    · rw [max_eq_right hx]

/-- Claim C7 (amended): for a fixed oil set with nonnegative pure-lye
demand, the lye weight is non-increasing in the superfat percentage
(the 2-decimal rounding can erase a strict decrease), and at 100%
superfat it is exactly 0. -/
theorem c7_superfat_monotone (db : OilDB) (c : SoapCalculator) (a b : ℚ)
    (hpure : 0 ≤ pure_lye db c) (hab : a ≤ b) :
    get_lye_weight db { c with superfat_percent := b } ≤
      get_lye_weight db { c with superfat_percent := a } ∧
    get_lye_weight db { c with superfat_percent := 100 } = 0 := by
  have hpure' : ∀ s : ℚ, pure_lye db { c with superfat_percent := s } = pure_lye db c :=
    fun s => rfl
  have htot : ∀ s : ℚ, get_total_oil_weight { c with superfat_percent := s } =
      get_total_oil_weight c := fun s => rfl
  constructor
  · unfold get_lye_weight
    simp only [hpure', htot]
    have hmul : pure_lye db c * (1 - b / 100) ≤ pure_lye db c * (1 - a / 100) := by
      apply mul_le_mul_of_nonneg_left _ hpure
      linarith
    split_ifs with h0 hk
    · exact le_refl 0
    · exact round2_mono ((div_le_div_iff_of_pos_right (by norm_num : (0:ℚ) < 90/100)).mpr hmul)
    · exact round2_mono hmul
  · unfold get_lye_weight
    simp only [hpure', htot]
    split_ifs with h0 hk
    · rfl
    · have : pure_lye db c * (1 - 100 / 100) = 0 := by ring
      rw [this]
      norm_num [round2_zero]
    · have : pure_lye db c * (1 - 100 / 100) = 0 := by ring
      rw [this, round2_zero]

theorem palm100_lye_eval : get_lye_weight oilsDB palm100 = 1349/100 := by
  simp [get_lye_weight, get_total_oil_weight, pure_lye, palm100, initCalc, oilsDB,
    get_oil_sap, lookupOil, sapKey_naoh, OilRecord.getNum, List.find?]
  rw [round2, rhe]
  norm_num

theorem palm100_nominal_eval : nominal_water oilsDB ADDITIVES palm100 = 2698/100 := by
  unfold nominal_water
  rw [if_pos (show palm100.water_calc_method = "ratio" from rfl)]
  rw [palm100_lye_eval, show palm100.water_to_lye_ratio = 2 from rfl]
  norm_num

theorem palm100_water_eval : get_water_weight oilsDB ADDITIVES palm100 = 2698/100 := by
  have hlz : get_lye_weight oilsDB palm100 ≠ 0 := by
    rw [palm100_lye_eval]
    norm_num
  unfold get_water_weight
  rw [if_neg hlz, palm100_nominal_eval,
    show replacement_total ADDITIVES palm100.additives = 0 from rfl]
  rw [show (2698/100 : ℚ) - 0 = 2698/100 by norm_num]
  rw [max_eq_right (by norm_num : (0:ℚ) ≤ 2698/100)]
  exact round2_eq_self_of_cent ⟨2698, by norm_num⟩

/-- The C4 counterexample state: 100 g Palm Oil plus 50 g of Honey. -/
def c4state : SoapCalculator := { palm100 with additives := [("Honey", 50)] }

/-- Counterexample to C4 as stated: with 100 g Palm Oil and 50 g Honey
(a non-water-replacement additive), the reported total batch weight is
140.47 = oil + lye + water, not 190.47 = oil + lye + water + 50. -/
theorem c4_total_batch_counterexample :
    (get_batch_properties oilsDB ADDITIVES c4state).total_batch_weight ≠
      get_total_oil_weight c4state + get_lye_weight oilsDB c4state +
        get_water_weight oilsDB ADDITIVES c4state + 50 := by
  have htot : get_total_oil_weight c4state = 100 := by
    simp [get_total_oil_weight, c4state, palm100, initCalc]
  have hlye : get_lye_weight oilsDB c4state = 1349/100 := palm100_lye_eval
  have hlz : get_lye_weight oilsDB c4state ≠ 0 := by
    rw [hlye]
    norm_num
  have hnom : nominal_water oilsDB ADDITIVES c4state = 2698/100 := by
    unfold nominal_water
    rw [if_pos (show c4state.water_calc_method = "ratio" from rfl)]
    rw [hlye, show c4state.water_to_lye_ratio = 2 from rfl]
    norm_num
  have hrepl : replacement_total ADDITIVES c4state.additives = 0 := by
    simp [replacement_total, c4state, additiveIsReplacement, lookupAdditive, ADDITIVES,
      List.find?]
  have hwater : get_water_weight oilsDB ADDITIVES c4state = 2698/100 := by
    unfold get_water_weight
    rw [if_neg hlz, hnom, hrepl]
    rw [show (2698/100 : ℚ) - 0 = 2698/100 by norm_num]
    rw [max_eq_right (by norm_num : (0:ℚ) ≤ 2698/100)]
    exact round2_eq_self_of_cent ⟨2698, by norm_num⟩
  have hmain : (get_batch_properties oilsDB ADDITIVES c4state).total_batch_weight =
      round2 (get_total_oil_weight c4state + get_lye_weight oilsDB c4state +
        get_water_weight oilsDB ADDITIVES c4state) := rfl
  rw [hmain, htot, hlye, hwater]
  rw [show (100 : ℚ) + 1349/100 + 2698/100 = 14047/100 by norm_num]
  rw [round2_eq_self_of_cent ⟨14047, by norm_num⟩]
  norm_num

/-- Witness for C4 (amended) at 100 g Palm Oil plus 50 g Honey. -/
theorem c4_total_batch_witness :
    (get_batch_properties oilsDB ADDITIVES (add_additive palm100 "Honey" 50)).total_batch_weight =
      (get_batch_properties oilsDB ADDITIVES palm100).total_batch_weight := by
  have h := c4_total_batch_weight oilsDB ADDITIVES palm100 "Honey" 50
    (by simp [additiveIsReplacement, lookupAdditive, ADDITIVES, List.find?])
    (by simp [additiveAdjust, lookupAdditive, ADDITIVES, List.find?])
    (by norm_num)
  exact h.2

/-- Counterexample to C6 as stated: adding 0.004 g of the
water-replacement additive Goat Milk (Liquid) to 100 g Palm Oil does
not decrease the water weight by 0.004 — the 2-decimal rounding
returns 26.98 instead of 26.976. -/
theorem c6_water_replacement_counterexample :
    get_water_weight oilsDB ADDITIVES (add_additive palm100 "Goat Milk (Liquid)" (4/1000)) ≠
      max 0 (get_water_weight oilsDB ADDITIVES palm100 - 4/1000) := by
  have hadd : add_additive palm100 "Goat Milk (Liquid)" (4/1000) =
      { palm100 with additives := [("Goat Milk (Liquid)", 4/1000)] } := by
    unfold add_additive
    rw [if_pos (by norm_num : (0:ℚ) < 4/1000)]
    rfl
  rw [hadd, palm100_water_eval]
  have hlye2 : get_lye_weight oilsDB
      { palm100 with additives := [("Goat Milk (Liquid)", 4/1000)] } = 1349/100 :=
    palm100_lye_eval
  have hlz : get_lye_weight oilsDB
      { palm100 with additives := [("Goat Milk (Liquid)", 4/1000)] } ≠ 0 := by
    rw [hlye2]
    norm_num
  unfold get_water_weight
  rw [if_neg hlz]
  have hnom2 : nominal_water oilsDB ADDITIVES
      { palm100 with additives := [("Goat Milk (Liquid)", 4/1000)] } = 2698/100 := by
    unfold nominal_water
    rw [if_pos (show ({ palm100 with additives := [("Goat Milk (Liquid)", 4/1000)] } :
      SoapCalculator).water_calc_method = "ratio" from rfl)]
    rw [hlye2, show ({ palm100 with additives := [("Goat Milk (Liquid)", 4/1000)] } :
      SoapCalculator).water_to_lye_ratio = 2 from rfl]
    norm_num
  have hrepl : replacement_total ADDITIVES
      ({ palm100 with additives := [("Goat Milk (Liquid)", 4/1000)] } :
        SoapCalculator).additives = 4/1000 := by
    simp [replacement_total, additiveIsReplacement, lookupAdditive, ADDITIVES, List.find?]
  rw [hnom2, hrepl]
  rw [show (2698/100 : ℚ) - 4/1000 = 26976/1000 by norm_num]
  rw [max_eq_right (by norm_num : (0:ℚ) ≤ 26976/1000)]
  rw [round2, rhe]
  norm_num

/-- Witness for C6 (amended): adding 5 g of Goat Milk (Liquid) to 100 g
Palm Oil lowers the water weight from 26.98 to 21.98. -/
theorem c6_water_replacement_witness :
    get_water_weight oilsDB ADDITIVES (add_additive palm100 "Goat Milk (Liquid)" 5) =
      max 0 (get_water_weight oilsDB ADDITIVES palm100 - 5) := by
  apply c6_water_replacement_subtracts
  · simp [additiveIsReplacement, lookupAdditive, ADDITIVES, List.find?]
  · simp [additiveAdjust, lookupAdditive, ADDITIVES, List.find?]
  · exact ⟨500, by norm_num⟩
  · norm_num
  · rfl
  · rw [palm100_nominal_eval, show replacement_total ADDITIVES palm100.additives = 0 from rfl]
    exact ⟨2698, by norm_num⟩

/-- The C7 counterexample state: 0.01 g Palm Oil at 0% superfat. -/
def c7state : SoapCalculator :=
  { palm100 with oils := [("Palm Oil", 1/100)], superfat_percent := 0 }

/-- Counterexample to C7 as stated: for 0.01 g of Palm Oil, superfats 0%
and 50% both round to a lye weight of 0.00, so raising the superfat
from 0 to 50 does not strictly decrease `get_lye_weight`. -/
theorem c7_superfat_strictness_counterexample :
    ¬ (get_lye_weight oilsDB { c7state with superfat_percent := 50 } <
        get_lye_weight oilsDB c7state) := by
  have h1 : get_lye_weight oilsDB c7state = 0 := by
    simp [get_lye_weight, get_total_oil_weight, pure_lye, c7state, palm100, initCalc,
      oilsDB, get_oil_sap, lookupOil, sapKey_naoh, OilRecord.getNum, List.find?]
    rw [round2, rhe]
    norm_num
  have h2 : get_lye_weight oilsDB { c7state with superfat_percent := 50 } = 0 := by
    simp [get_lye_weight, get_total_oil_weight, pure_lye, c7state, palm100, initCalc,
      oilsDB, get_oil_sap, lookupOil, sapKey_naoh, OilRecord.getNum, List.find?]
    rw [round2, rhe]
    norm_num
  rw [h1, h2]
  exact lt_irrefl 0

/-- Witness for C7 (amended) on 100 g Palm Oil: lye at 8% superfat is at
most lye at 4%, and lye at 100% superfat is 0. -/
theorem c7_superfat_monotone_witness :
    get_lye_weight oilsDB { palm100 with superfat_percent := 8 } ≤
      get_lye_weight oilsDB { palm100 with superfat_percent := 4 } ∧
    get_lye_weight oilsDB { palm100 with superfat_percent := 100 } = 0 := by
  apply c7_superfat_monotone oilsDB palm100 4 8
  · simp [pure_lye, palm100, initCalc, oilsDB, get_oil_sap, lookupOil, sapKey_naoh,
      OilRecord.getNum, List.find?]
    norm_num
  · norm_num

/-- One restock step: `add_stock(name, price, qty, "grams")` with the
purchase given as a (price, quantity) pair. -/
def restock (name : String) (costs : CostStore) (pq : ℚ × ℚ) : CostStore :=
  add_stock costs name pq.1 pq.2 "grams"

theorem convert_to_grams_grams (amount : ℚ) :
    convert_to_grams amount "grams" = amount := by
  have h : trimStr (lowerStr "grams") = "grams" := by decide
  simp [convert_to_grams, h]

/-- Restocking a single-entry store keyed `name` accumulates both the
running price and the running gram quantity, exactly when every figure
is a whole number of cents / hundredths (so the per-step 2-decimal
rounding is the identity). -/
theorem fold_restock (name : String) (ps : List (ℚ × ℚ)) :
    ∀ P Q : ℚ, isCent P → isCent Q →
      (∀ pq ∈ ps, isCent pq.1 ∧ isCent pq.2) →
      ps.foldl (restock name) [(name, ⟨P, Q, "grams"⟩)] =
        [(name, ⟨P + (ps.map Prod.fst).sum, Q + (ps.map Prod.snd).sum, "grams"⟩)] := by
  induction ps with
  | nil =>
    intro P Q _ _ _
    simp
  | cons pq t ih =>
    intro P Q hP hQ hmem
    have hstep : restock name [(name, ⟨P, Q, "grams"⟩)] pq =
        [(name, ⟨P + pq.1, Q + pq.2, "grams"⟩)] := by
      unfold restock add_stock
      have hfind : lookupCost [(name, (⟨P, Q, "grams"⟩ : CostRecord))] name =
          some ⟨P, Q, "grams"⟩ := by
        simp [lookupCost]
      simp only [hfind, convert_to_grams_grams]
      rw [round2_eq_self_of_cent (isCent_add hP (hmem pq (by simp)).1),
        round2_eq_self_of_cent (isCent_add hQ (hmem pq (by simp)).2)]
      simp [upsertCost]
    rw [List.foldl_cons, hstep,
      ih (P + pq.1) (Q + pq.2) (isCent_add hP (hmem pq (by simp)).1)
        (isCent_add hQ (hmem pq (by simp)).2)
        (fun x hx => hmem x (by simp [hx]))]
    simp [add_assoc]

/-- Claim C8 (amended): starting untracked, after any nonempty sequence
of `add_stock` restocks in grams whose prices and quantities are whole
numbers of cents / hundredths of a gram, the cost per gram is the sum
of all prices paid divided by the sum of all purchased grams —
weighted-average cost, not the latest price.  (For finer figures the
per-restock 2-decimal rounding of the running totals makes the result
deviate from the exact blend.) -/
theorem c8_weighted_average_cost (name : String) (ps : List (ℚ × ℚ))
    (hps : ∀ pq ∈ ps, isCent pq.1 ∧ isCent pq.2 ∧ 0 < pq.2) (hne : ps ≠ []) :
    get_cost_per_gram (ps.foldl (restock name) []) name =
      (ps.map Prod.fst).sum / (ps.map Prod.snd).sum := by
  match ps, hne with
  | pq :: t, _ =>
    have hfirst : restock name [] pq = [(name, ⟨pq.1, pq.2, "grams"⟩)] := by
      unfold restock add_stock
      have h0 : lookupCost ([] : CostStore) name = none := rfl
      simp only [h0]
      unfold set_cost upsertCost
      simp
    rw [List.foldl_cons, hfirst,
      fold_restock name t pq.1 pq.2 (hps pq (by simp)).1 (hps pq (by simp)).2.1
        (fun x hx => ⟨(hps x (by simp [hx])).1, (hps x (by simp [hx])).2.1⟩)]
    have hfind : lookupCost
        [(name, (⟨pq.1 + (t.map Prod.fst).sum, pq.2 + (t.map Prod.snd).sum, "grams"⟩ :
          CostRecord))] name =
        some ⟨pq.1 + (t.map Prod.fst).sum, pq.2 + (t.map Prod.snd).sum, "grams"⟩ := by
      simp [lookupCost]
    have hqpos : 0 < pq.2 + (t.map Prod.snd).sum := by
      have h1 : 0 < pq.2 := (hps pq (by simp)).2.2
      have h2 : 0 ≤ (t.map Prod.snd).sum := by
        apply List.sum_nonneg
        intro x hx
        obtain ⟨y, hy, rfl⟩ := List.mem_map.mp hx
        exact le_of_lt (hps y (by simp [hy])).2.2
      linarith
    unfold get_cost_per_gram
    simp only [hfind, convert_to_grams_grams]
    rw [if_neg (by linarith), if_neg (by linarith)]
    simp

/-- Witness for C8: restocking an untracked ingredient twice with $10
for 100 g yields a cost per gram of exactly 0.10. -/
theorem c8_weighted_average_cost_witness :
    get_cost_per_gram ([((10:ℚ), (100:ℚ)), (10, 100)].foldl (restock "Lye (NaOH)") [])
      "Lye (NaOH)" = 1/10 := by
  have h := c8_weighted_average_cost "Lye (NaOH)" [(10, 100), (10, 100)]
    (by
      intro pq hpq
      have hpq' : pq = (10, 100) := by
        simpa using hpq
      rw [hpq']
      exact ⟨⟨1000, by norm_num⟩, ⟨10000, by norm_num⟩, by norm_num⟩)
    (by simp)
  rw [h]
  norm_num

/-- Counterexample to C8 as stated: two restocks of $1 for 0.004 g each
give a stored quantity of `round2(0.008) = 0.01` g, so the cost per
gram is 2/0.01 = 200, not the claimed 2/0.008 = 250. -/
theorem c8_weighted_average_cost_counterexample :
    get_cost_per_gram (add_stock (add_stock [] "Beeswax" 1 (4/1000) "grams")
        "Beeswax" 1 (4/1000) "grams") "Beeswax" ≠
      (1 + 1) / ((4/1000 : ℚ) + 4/1000) := by
  have h1 : add_stock [] "Beeswax" 1 (4/1000) "grams" =
      [("Beeswax", ⟨1, 4/1000, "grams"⟩)] := by
    unfold add_stock
    have h0 : lookupCost ([] : CostStore) "Beeswax" = none := rfl
    simp only [h0]
    unfold set_cost upsertCost
    simp
  rw [h1]
  have h2 : add_stock [("Beeswax", ⟨1, 4/1000, "grams"⟩)] "Beeswax" 1 (4/1000) "grams" =
      [("Beeswax", ⟨2, 1/100, "grams"⟩)] := by
    unfold add_stock
    have hfind : lookupCost [("Beeswax", (⟨1, 4/1000, "grams"⟩ : CostRecord))] "Beeswax" =
        some ⟨1, 4/1000, "grams"⟩ := by
      simp [lookupCost]
    simp only [hfind, convert_to_grams_grams]
    have hr1 : round2 ((1:ℚ) + 1) = 2 := by
      rw [show (1:ℚ) + 1 = 2 by norm_num]
      exact round2_eq_self_of_cent ⟨200, by norm_num⟩
    have hr2 : round2 ((4/1000:ℚ) + 4/1000) = 1/100 := by
      rw [show (4/1000:ℚ) + 4/1000 = 8/1000 by norm_num]
      rw [round2, rhe]
      norm_num
    rw [hr1, hr2]
    simp [upsertCost]
  rw [h2]
  unfold get_cost_per_gram
  rw [show lookupCost [("Beeswax", (⟨2, 1/100, "grams"⟩ : CostRecord))] "Beeswax" =
    some ⟨2, 1/100, "grams"⟩ from by simp [lookupCost]]
  simp only [convert_to_grams_grams]
  rw [if_neg (by norm_num), if_neg (by norm_num)]
  norm_num

end SoapCalc
